import Mathlib

/-!
# The `Tile` binding of deep-rts (`src/wrapper/Tile.cpp`)

`init_Tile` builds one pybind11 class, `py::class_<Tile>(m, "Tile")`, by a chain of
registrations: one `py::init<...>` constructor, eight `def_readonly` attributes and ten
`def` methods.  The chain is embedded as data: the list of registrations in source order.
-/

namespace DeepRTS

/-! ## The registration chain of `init_Tile` -/

/-- The C++ parameter types that occur in `py::init<...>` of `init_Tile`. -/
inductive CppType where
  | tilemapRef
  | int
  | stringRef
  | bool
  deriving DecidableEq, Repr

/-- A pointer to member `&cls::member`, the second argument of every `def...` call. -/
structure MemberPtr where
  cls : String
  member : String
  deriving DecidableEq, Repr

/-- One call in a `py::class_` chain.  `init`, `defReadonly` and `defMethod` are the calls
`init_Tile` makes; `defReadwrite` is the writable attribute registration of the same
pybind11 interface, which `init_Tile` never makes. -/
inductive Registration where
  | init (params : List CppType)
  | defReadonly (name : String) (ptr : MemberPtr)
  | defReadwrite (name : String) (ptr : MemberPtr)
  | defMethod (name : String) (ptr : MemberPtr)
  deriving DecidableEq, Repr

/-- The scripting-side class built by a `py::class_<T>(m, name)` chain. -/
structure ClassBinding where
  pyName : String
  registrations : List Registration
  deriving Repr

/-- The body of `init_Tile`: `py::class_<Tile>(m, "Tile")` followed by its chain of calls,
in source order. -/
def init_Tile : ClassBinding where
  pyName := "Tile"
  registrations :=
    [ .init [.tilemapRef, .int, .int, .int, .int, .int, .stringRef, .int, .bool, .bool,
             .bool, .int, .stringRef, .int, .bool, .bool, .bool, .int, .int, .int, .int],
      .defReadonly "id" ⟨"Tile", "id"⟩,
      .defReadonly "oil_yield" ⟨"Tile", "oilYield"⟩,
      .defReadonly "lumber_yield" ⟨"Tile", "lumberYield"⟩,
      .defReadonly "gold_yield" ⟨"Tile", "goldYield"⟩,
      .defReadonly "x" ⟨"Tile", "x"⟩,
      .defReadonly "y" ⟨"Tile", "y"⟩,
      .defReadonly "height" ⟨"Tile", "height"⟩,
      .defReadonly "width" ⟨"Tile", "width"⟩,
      .defMethod "is_walkable" ⟨"Tile", "isWalkable"⟩,
      .defMethod "is_harvestable" ⟨"Tile", "isHarvestable"⟩,
      .defMethod "is_buildable" ⟨"Tile", "isBuildable"⟩,
      .defMethod "is_attackable" ⟨"Tile", "isAttackable"⟩,
      .defMethod "get_occupant" ⟨"Tile", "getOccupant"⟩,
      .defMethod "has_occupant" ⟨"Tile", "hasOccupant"⟩,
      .defMethod "get_resources" ⟨"Tile", "getResources"⟩,
      .defMethod "get_type_id" ⟨"Tile", "getTypeId"⟩,
      .defMethod "is_depleted" ⟨"Tile", "isDepleted"⟩,
      .defMethod "get_name" ⟨"Tile", "getName"⟩ ]

/-! ## Reading a registration chain -/

/-- The name of a data attribute registration (`def_readonly` or `def_readwrite`). -/
def Registration.attrName? : Registration → Option String
  | .defReadonly n _ => some n
  | .defReadwrite n _ => some n
  | _ => none

/-- The name of a method registration (`def`). -/
def Registration.methodName? : Registration → Option String
  | .defMethod n _ => some n
  | _ => none

/-- The parameter list of a constructor registration (`py::init<...>`). -/
def Registration.ctorParams? : Registration → Option (List CppType)
  | .init ps => some ps
  | _ => none

/-- The scripting-side name and the native member of a registration that binds one. -/
def Registration.binding? : Registration → Option (String × MemberPtr)
  | .defReadonly n p => some (n, p)
  | .defReadwrite n p => some (n, p)
  | .defMethod n p => some (n, p)
  | .init _ => none

/-- Whether the registration makes an attribute settable from the scripting side. -/
def Registration.isWritable : Registration → Bool
  | .defReadwrite _ _ => true
  | _ => false

/-- Whether the registration is a `def_readonly`. -/
def Registration.isReadonlyAttr : Registration → Bool
  | .defReadonly _ _ => true
  | _ => false

/-- The data attributes of a class, in registration order. -/
def ClassBinding.attributes (c : ClassBinding) : List String :=
  c.registrations.filterMap Registration.attrName?

/-- The methods of a class, in registration order. -/
def ClassBinding.methods (c : ClassBinding) : List String :=
  c.registrations.filterMap Registration.methodName?

/-- The constructors of a class, each as its parameter type list. -/
def ClassBinding.constructors (c : ClassBinding) : List (List CppType) :=
  c.registrations.filterMap Registration.ctorParams?

/-- Every (scripting name, native member) pair of a class, in registration order. -/
def ClassBinding.bindings (c : ClassBinding) : List (String × MemberPtr) :=
  c.registrations.filterMap Registration.binding?

/-- The ten query methods that section 4.1 of the specification enumerates, in the
specification's order. -/
def section41Methods : List String :=
  ["is_walkable", "is_harvestable", "is_buildable", "is_attackable", "has_occupant",
   "get_occupant", "get_resources", "is_depleted", "get_type_id", "get_name"]

/-- The construction signature that section 6 of the specification gives, as a type list:
`Tile(tilemap_ref, id, x, y, width, height, type_name, type_id, walkable, harvestable,
buildable, attackable, name2, type_id2, flag, flag, flag, oil_yield, lumber_yield,
gold_yield)`. -/
def section6Signature : List CppType :=
  [.tilemapRef, .int, .int, .int, .int, .int, .stringRef, .int, .bool, .bool, .bool, .bool,
   .stringRef, .int, .bool, .bool, .bool, .int, .int, .int]

/-- The snake_case form of a camelCase identifier, on characters: an upper-case letter
becomes an underscore followed by its lower-case form. -/
def snakeChars : List Char → List Char
  | [] => []
  | c :: cs => if c.isUpper then '_' :: c.toLower :: snakeChars cs else c :: snakeChars cs

/-- The snake_case form of a camelCase identifier. -/
def snakeCase (s : String) : String :=
  String.mk (snakeChars s.data)

/-! ## The core behind the binding

`environment/Tile.h` and `environment/Tilemap.h` are included by `Tile.cpp` but their
text is not part of it.  What the binding forwards to is modelled from the specification
(sections 3, 4, 7 and 8). -/

/-- Modelled from the spec: the error taxonomy of section 7, which `Tile.h` and
`Tilemap.h` would declare.  `NoTile` is the `NoTile` result of `get_tile` as seen by an
operation that needs a tile. -/
inductive TileError where
  | ConfigurationError
  | OutOfBounds
  | AlreadyOccupied
  | NotHarvestable
  | NotBuildable
  | NotWalkable
  | NotFound
  | NoTile
  deriving DecidableEq, Repr

/-- Modelled from the spec: the `Tile` record of section 3 (class `Tile` of
`environment/Tile.h`).  `harvestable` is the terrain flag given at creation, the
occupant is an opaque identity. -/
structure Tile where
  id : Int
  x : Int
  y : Int
  width : Int
  height : Int
  type_id : Int
  name : String
  oil_yield : Int
  lumber_yield : Int
  gold_yield : Int
  walkable : Bool
  harvestable : Bool
  buildable : Bool
  attackable : Bool
  resources_remaining : Int
  occupant : Option String
  deriving DecidableEq, Repr

/-- Modelled from the spec: `Tile::hasOccupant` of `Tile.h`, section 4.1. -/
def Tile.has_occupant (t : Tile) : Bool :=
  t.occupant.isSome

/-- Modelled from the spec: `Tile::getOccupant` of `Tile.h`, section 4.1
(`get_occupant() -> optional identity`). -/
def Tile.get_occupant (t : Tile) : Option String :=
  t.occupant

/-- Modelled from the spec: `Tile::getResources` of `Tile.h`, section 4.1
(current `resources_remaining`). -/
def Tile.get_resources (t : Tile) : Int :=
  t.resources_remaining

/-- Modelled from the spec: `Tile::isHarvestable` of `Tile.h`, section 4.1 (true iff the
terrain type has a harvestable resource and `resources_remaining > 0`). -/
def Tile.is_harvestable (t : Tile) : Bool :=
  t.harvestable && decide (0 < t.resources_remaining)

/-- Modelled from the spec: `Tile::isDepleted` of `Tile.h`, section 3 (holds iff
`resources_remaining == 0` and the tile was harvestable at creation; the glossary calls
a depleted tile "a harvestable tile whose resource counter has reached zero", so
harvestable at creation is read as the creation-time terrain flag). -/
def Tile.is_depleted (t : Tile) : Bool :=
  decide (t.resources_remaining = 0) && t.harvestable

/-- Modelled from the spec: the footprint test of section 3 and the glossary (the cells a
tile's width x height spans from its anchor), which `Tilemap.h` would implement. -/
def Tile.covers (t : Tile) (x y : Int) : Bool :=
  decide (t.x ≤ x) && decide (x < t.x + t.width) &&
    (decide (t.y ≤ y) && decide (y < t.y + t.height))

/-- Modelled from the spec: the footprint of a tile as a list of cells (glossary). -/
def Tile.footprint (t : Tile) : List (Int × Int) :=
  (List.range t.width.toNat).flatMap fun i =>
    (List.range t.height.toNat).map fun j => (t.x + (i : Int), t.y + (j : Int))

/-- Modelled from the spec: the internal setter of section 4.1 by which the owning tilemap
decrements `resources_remaining` (`Tile.h`). -/
def Tile.decrement (got : Int) (t : Tile) : Tile :=
  { t with resources_remaining := t.resources_remaining - got }

/-- Modelled from the spec: the internal setter of section 4.1 by which the owning tilemap
sets the occupant (`Tile.h`). -/
def Tile.setOccupant (who : String) (t : Tile) : Tile :=
  { t with occupant := some who }

/-- Modelled from the spec: the `Tilemap` record of section 3 (class `Tilemap` of
`environment/Tilemap.h`): dimensions, the placed tiles, and the occupancy index from
occupant identity to the cells it occupies. -/
structure Tilemap where
  width : Int
  height : Int
  tiles : List Tile
  occupancy_index : List (String × List (Int × Int))
  deriving DecidableEq, Repr

/-- Modelled from the spec: `get_tile` of section 4.2 (`Tilemap.h`): `OutOfBounds`
outside the map, otherwise the tile whose footprint covers the cell, `none` being the
`NoTile` result. -/
def Tilemap.get_tile (m : Tilemap) (x y : Int) : Except TileError (Option Tile) :=
  if x < 0 ∨ m.width ≤ x ∨ y < 0 ∨ m.height ≤ y then .error .OutOfBounds
  else .ok (m.tiles.find? fun t => t.covers x y)

/-- Modelled from the spec: the occupancy index lookup of section 3 (`Tilemap.h`): the
identity registered for a cell, if any. -/
def Tilemap.occupant_at (m : Tilemap) (c : Int × Int) : Option String :=
  (m.occupancy_index.find? fun e => e.2.contains c).map Prod.fst

/-- Modelled from the spec: the in-place update of the one tile an operation of
section 4.2 addresses (`Tilemap.h`): the first tile satisfying `p` is replaced. -/
def updateFirst (p : Tile → Bool) (f : Tile → Tile) : List Tile → List Tile
  | [] => []
  | t :: ts => if p t then f t :: ts else t :: updateFirst p f ts

/-- Modelled from the spec: `harvest` of section 4.2 (`Tilemap.h`): fails with
`NotHarvestable` if `is_harvestable()` is false at call time, otherwise clamps `amount`
to `resources_remaining`, decrements, and returns the amount harvested.  The result is
paired with the tilemap after the call. -/
def Tilemap.harvest (m : Tilemap) (c : Int × Int) (amount : Int) :
    Except TileError Int × Tilemap :=
  match m.get_tile c.1 c.2 with
  | .error e => (.error e, m)
  | .ok none => (.error .NoTile, m)
  | .ok (some t) =>
    if t.is_harvestable then
      let got := min amount t.resources_remaining
      (.ok got,
        { m with tiles := updateFirst (fun u => u.covers c.1 c.2) (Tile.decrement got) m.tiles })
    else (.error .NotHarvestable, m)

/-- Modelled from the spec: `place_occupant` of section 4.2 (`Tilemap.h`): fails with
`AlreadyOccupied` if the target tile or any cell of its footprint already has an
occupant, then applies the caller-supplied policy (`NotBuildable` / `NotWalkable`), and
on success sets the tile's occupant and inserts into the occupancy index.  The result is
paired with the tilemap after the call. -/
def Tilemap.place_occupant (policy : Tile → Option TileError) (m : Tilemap) (c : Int × Int)
    (who : String) : Except TileError Unit × Tilemap :=
  match m.get_tile c.1 c.2 with
  | .error e => (.error e, m)
  | .ok none => (.error .NoTile, m)
  | .ok (some t) =>
    if t.has_occupant || t.footprint.any (fun cell => (m.occupant_at cell).isSome) then
      (.error .AlreadyOccupied, m)
    else
      match policy t with
      | some e => (.error e, m)
      | none =>
        (.ok (),
          { m with
            tiles := updateFirst (fun u => u.covers c.1 c.2) (Tile.setOccupant who) m.tiles,
            occupancy_index := (who, t.footprint) :: m.occupancy_index })

/-- The arguments of the constructor that `py::init<...>` registers in `init_Tile`, one
field per template type, in source order (21 fields).  The names are those section 6 of
the specification gives to the positions; the twelfth parameter, which section 6 calls
`attackable`, is an `int` in the source, and the eighteenth, an `int` that section 6
does not have, is `arg18`. -/
structure CtorArgs where
  tilemap : Tilemap
  id : Int
  x : Int
  y : Int
  width : Int
  height : Int
  type_name : String
  type_id : Int
  walkable : Bool
  harvestable : Bool
  buildable : Bool
  attackable : Int
  name2 : String
  type_id2 : Int
  flag1 : Bool
  flag2 : Bool
  flag3 : Bool
  arg18 : Int
  oil_yield : Int
  lumber_yield : Int
  gold_yield : Int
  deriving DecidableEq, Repr

/-- A value passed for one constructor parameter, tagged with its C++ type. -/
inductive CppValue where
  | tilemapRef (m : Tilemap)
  | int (n : Int)
  | stringRef (s : String)
  | bool (b : Bool)
  deriving DecidableEq, Repr

/-- The C++ type of a parameter value. -/
def CppValue.type : CppValue → CppType
  | .tilemapRef _ => .tilemapRef
  | .int _ => .int
  | .stringRef _ => .stringRef
  | .bool _ => .bool

/-- The positional argument list of a constructor call, in the order of `CtorArgs`. -/
def CtorArgs.values (a : CtorArgs) : List CppValue :=
  [.tilemapRef a.tilemap, .int a.id, .int a.x, .int a.y, .int a.width, .int a.height,
   .stringRef a.type_name, .int a.type_id, .bool a.walkable, .bool a.harvestable,
   .bool a.buildable, .int a.attackable, .stringRef a.name2, .int a.type_id2,
   .bool a.flag1, .bool a.flag2, .bool a.flag3, .int a.arg18, .int a.oil_yield,
   .int a.lumber_yield, .int a.gold_yield]

/-- Modelled from the spec: the counter a tile starts with (constructor of `Tile`,
`Tile.h`), section 8: `get_resources()` immediately after creation is the oil, lumber or
gold yield matching the harvestable resource type.  No constructor parameter carries a
resource type, so it is read off the yields: the first of oil, lumber, gold whose yield
is positive. -/
def initial_resources (oil_yield lumber_yield gold_yield : Int) : Int :=
  if 0 < oil_yield then oil_yield
  else if 0 < lumber_yield then lumber_yield
  else gold_yield

/-- Modelled from the spec: the constructor of `Tile` (`Tile.h`) that `py::init<...>`
forwards its 21 arguments to, section 4.1: a non-positive width or height, a negative
yield, or a `type_id` unknown to the terrain registry fails with `ConfigurationError`.
The terrain registry, a table that is not in the source, is the list `registry` of known
type ids.  The new tile has no occupant; its integer `attackable` argument counts as true
when it is not zero. -/
def Tile.create (registry : List Int) (a : CtorArgs) : Except TileError Tile :=
  if a.width ≤ 0 ∨ a.height ≤ 0 then .error .ConfigurationError
  else if a.oil_yield < 0 ∨ a.lumber_yield < 0 ∨ a.gold_yield < 0 then
    .error .ConfigurationError
  else if a.type_id ∉ registry then .error .ConfigurationError
  else
    .ok
      { id := a.id, x := a.x, y := a.y, width := a.width, height := a.height
        type_id := a.type_id, name := a.type_name
        oil_yield := a.oil_yield, lumber_yield := a.lumber_yield, gold_yield := a.gold_yield
        walkable := a.walkable, harvestable := a.harvestable
        buildable := a.buildable, attackable := decide (a.attackable ≠ 0)
        resources_remaining := initial_resources a.oil_yield a.lumber_yield a.gold_yield
        occupant := none }

/-! ## The example of section 8 -/

/-- The 2x1 tile at (0,0)-(1,0) with `gold_yield = 10` of the examples of section 8,
before any harvest: harvestable, ten resources remaining, no occupant. -/
def exampleTile : Tile where
  id := 0
  x := 0
  y := 0
  width := 2
  height := 1
  type_id := 1
  name := "Gold"
  oil_yield := 0
  lumber_yield := 0
  gold_yield := 10
  walkable := true
  harvestable := true
  buildable := true
  attackable := true
  resources_remaining := 10
  occupant := none

/-- A 2x1 tilemap holding only `exampleTile`. -/
def exampleMap : Tilemap where
  width := 2
  height := 1
  tiles := [exampleTile]
  occupancy_index := []

/-- The policy of a caller that indicates no intent: nothing further is checked. -/
def noPolicy : Tile → Option TileError :=
  fun _ => none

/-- A 2x1 tilemap on which no tile is placed yet. -/
def emptyMap : Tilemap where
  width := 2
  height := 1
  tiles := []
  occupancy_index := []

/-- Constructor arguments that describe `exampleTile`. -/
def exampleArgs : CtorArgs where
  tilemap := emptyMap
  id := 0
  x := 0
  y := 0
  width := 2
  height := 1
  type_name := "Gold"
  type_id := 1
  walkable := true
  harvestable := true
  buildable := true
  attackable := 1
  name2 := "Depleted"
  type_id2 := 2
  flag1 := true
  flag2 := false
  flag3 := true
  arg18 := 0
  oil_yield := 0
  lumber_yield := 0
  gold_yield := 10

/-! ## The binding: attributes, methods, constructor -/

/-- C1: the data attributes `init_Tile` registers are exactly `id, oil_yield, lumber_yield,
gold_yield, x, y, height, width`, each by `def_readonly`, and no registration of the class
is writable. -/
theorem init_Tile_attributes_readonly :
    init_Tile.attributes =
        ["id", "oil_yield", "lumber_yield", "gold_yield", "x", "y", "height", "width"] ∧
      (∀ r ∈ init_Tile.registrations, ∀ n, r.attrName? = some n → r.isReadonlyAttr = true) ∧
      (∀ r ∈ init_Tile.registrations, r.isWritable = false) := by
  decide

/-- C2: the methods `init_Tile` registers are exactly the ten query methods of section 4.1:
each of those is bound, each bound method is one of them, there are ten bound methods
without repetition, and none is `place_occupant`, `remove_occupant`, `harvest` or a
setter (a name starting with `set`). -/
theorem init_Tile_methods_section41 :
    (∀ n, n ∈ init_Tile.methods ↔ n ∈ section41Methods) ∧
      init_Tile.methods.length = 10 ∧ init_Tile.methods.Nodup ∧
      (∀ n ∈ init_Tile.methods,
        n ∉ ["place_occupant", "remove_occupant", "harvest"] ∧ ¬ ("set".data <+: n.data)) := by
  refine ⟨?_, by decide, by decide, by decide⟩
  intro n
  constructor
  · intro h
    have hall : ∀ k ∈ init_Tile.methods, k ∈ section41Methods := by decide
    exact hall n h
  · intro h
    have hall : ∀ k ∈ section41Methods, k ∈ init_Tile.methods := by decide
    exact hall n h

/-- C3, as stated, fails: the one constructor `init_Tile` registers does not take twenty
parameters. -/
theorem init_Tile_ctor_not_twenty :
    init_Tile.constructors.map List.length ≠ [20] := by
  decide

/-- C3, amended: `init_Tile` registers a single constructor, and it takes twenty-one
positional parameters. -/
theorem init_Tile_ctor_twenty_one :
    init_Tile.constructors.map List.length = [21] := by
  decide

/-- C4, as stated, fails: the constructor's parameter type list is not the signature of
section 6; its twelfth parameter is an integer where the signature has the boolean
`attackable`. -/
theorem init_Tile_ctor_not_section6 :
    init_Tile.constructors ≠ [section6Signature] ∧
      init_Tile.constructors.map (fun ps => ps.get? 11) = [some CppType.int] ∧
      section6Signature.get? 11 = some CppType.bool := by
  decide

/-- C4, amended: the constructor's parameter types are, in order, a Tilemap reference, five
integers, a string, an integer, three booleans, an integer, a string, an integer, three
booleans and four integers; that is the signature of section 6 with its twelfth entry an
integer instead of a boolean and one more integer at the end, so the last three
parameters are integers. -/
theorem init_Tile_ctor_signature :
    ∃ ps, init_Tile.constructors = [ps] ∧
      ps = [CppType.tilemapRef] ++ List.replicate 5 CppType.int ++
          [CppType.stringRef, CppType.int] ++ List.replicate 3 CppType.bool ++ [CppType.int] ++
          [CppType.stringRef, CppType.int] ++ List.replicate 3 CppType.bool ++
          List.replicate 4 CppType.int ∧
      ps = section6Signature.take 11 ++ [CppType.int] ++ section6Signature.drop 12 ++
          [CppType.int] ∧
      ps.drop 18 = [CppType.int, CppType.int, CppType.int] :=
  ⟨_, rfl, rfl, rfl, rfl⟩

/-- C5: after the six leading parameters (Tilemap reference, five integers) and before the
three trailing yield integers, the constructor's parameters are two consecutive copies of
one group of six types, which starts with a string, then an integer, then three booleans
(and ends with an integer). -/
theorem init_Tile_ctor_parallel_groups :
    ∃ ps g, init_Tile.constructors = [ps] ∧
      ps.take 6 = [CppType.tilemapRef, CppType.int, CppType.int, CppType.int, CppType.int,
        CppType.int] ∧
      ps.drop 18 = [CppType.int, CppType.int, CppType.int] ∧
      (ps.drop 6).take 12 = g ++ g ∧ ps.length = 6 + (g.length + g.length) + 3 ∧
      g = [CppType.stringRef, CppType.int, CppType.bool, CppType.bool, CppType.bool,
        CppType.int] :=
  ⟨_, [CppType.stringRef, CppType.int, CppType.bool, CppType.bool, CppType.bool, CppType.int],
    rfl, rfl, rfl, rfl, rfl, rfl⟩

/-- C10: the eighteen names `init_Tile` registers (eight attributes, then ten methods) are
pairwise distinct, the members they bind are pairwise distinct members of `Tile`, each
name is the snake_case form of the member it binds, and `id, x, y, height, width` bind the
members of the same name. -/
theorem init_Tile_names_distinct_snake_case :
    init_Tile.bindings.map Prod.fst = init_Tile.attributes ++ init_Tile.methods ∧
      (init_Tile.bindings.map Prod.fst).length = 18 ∧
      (init_Tile.bindings.map Prod.fst).Nodup ∧
      (init_Tile.bindings.map Prod.snd).Nodup ∧
      (∀ b ∈ init_Tile.bindings, b.2.cls = "Tile" ∧ snakeCase b.2.member = b.1) ∧
      (∀ n ∈ ["id", "x", "y", "height", "width"],
        (n, MemberPtr.mk "Tile" n) ∈ init_Tile.bindings) := by
  decide

/-! ## The modelled core: harvest, placement, construction -/

/-- Looking up with `p` after `updateFirst p f` finds the updated tile, when `f` keeps `p`. -/
theorem find?_updateFirst (p : Tile → Bool) (f : Tile → Tile)
    (hp : ∀ t, p t = true → p (f t) = true) (l : List Tile) :
    (updateFirst p f l).find? p = (l.find? p).map f := by
  induction l with
  | nil => rfl
  | cons t ts ih =>
    by_cases h : p t = true
    · simp [updateFirst, h, hp t h]
    · simp [updateFirst, h, ih]

/-- A successful `get_tile` is inside the bounds and is the first covering tile. -/
theorem get_tile_ok (m : Tilemap) (x y : Int) (r : Option Tile)
    (h : m.get_tile x y = .ok r) :
    ¬ (x < 0 ∨ m.width ≤ x ∨ y < 0 ∨ m.height ≤ y) ∧
      m.tiles.find? (fun t => t.covers x y) = r := by
  unfold Tilemap.get_tile at h
  split at h
  · cases h
  · rename_i hb
    injection h with h
    exact ⟨hb, h⟩

/-- After replacing the covering tile by `f` of it, `get_tile` at the same cell returns
`f` of the tile, when `f` keeps the footprint. -/
theorem get_tile_updateFirst (m : Tilemap) (x y : Int) (t : Tile) (f : Tile → Tile)
    (hf : ∀ u, (f u).covers x y = u.covers x y)
    (h : m.get_tile x y = .ok (some t)) :
    Tilemap.get_tile
        { m with tiles := updateFirst (fun u => u.covers x y) f m.tiles } x y =
      .ok (some (f t)) := by
  obtain ⟨hb, hfind⟩ := get_tile_ok m x y _ h
  unfold Tilemap.get_tile
  rw [if_neg hb]
  rw [find?_updateFirst (fun u => u.covers x y) f (fun u hu => (hf u).trans hu), hfind]
  rfl

/-- What `harvest` does on a harvestable tile. -/
theorem harvest_eq (m : Tilemap) (x y : Int) (t : Tile) (amount : Int)
    (ht : m.get_tile x y = .ok (some t)) (hh : t.is_harvestable = true) :
    m.harvest (x, y) amount =
      (.ok (min amount t.resources_remaining),
        { m with
          tiles := updateFirst (fun u => u.covers x y)
            (Tile.decrement (min amount t.resources_remaining)) m.tiles }) := by
  unfold Tilemap.harvest
  simp only [ht, hh, if_true]

/-- C6: on a harvestable tile (found at any cell of its footprint), `harvest` with an
amount above `resources_remaining` returns exactly the previous `resources_remaining`
and leaves the tile with `get_resources() = 0` and `is_depleted()` true; with an amount
at most `resources_remaining` it returns the amount and leaves the counter decremented
by it. -/
theorem harvest_clamps (m : Tilemap) (x y : Int) (t : Tile) (amount : Int)
    (ht : m.get_tile x y = .ok (some t)) (hh : t.is_harvestable = true) :
    (t.resources_remaining < amount →
        (m.harvest (x, y) amount).1 = .ok t.resources_remaining ∧
        ∃ u, (m.harvest (x, y) amount).2.get_tile x y = .ok (some u) ∧
          u = { t with resources_remaining := 0 } ∧
          u.get_resources = 0 ∧ u.is_depleted = true) ∧
      (amount ≤ t.resources_remaining →
        (m.harvest (x, y) amount).1 = .ok amount ∧
        ∃ u, (m.harvest (x, y) amount).2.get_tile x y = .ok (some u) ∧
          u = { t with resources_remaining := t.resources_remaining - amount } ∧
          u.get_resources = t.resources_remaining - amount) := by
  have hflag : t.harvestable = true := by
    unfold Tile.is_harvestable at hh
    simp only [Bool.and_eq_true] at hh
    exact hh.1
  have hget := get_tile_updateFirst m x y t
    (Tile.decrement (min amount t.resources_remaining)) (fun u => rfl) ht
  rw [harvest_eq m x y t amount ht hh]
  constructor
  · intro hlt
    have hmin : min amount t.resources_remaining = t.resources_remaining :=
      min_eq_right (le_of_lt hlt)
    rw [hmin] at hget ⊢
    refine ⟨rfl, t.decrement t.resources_remaining, hget, ?_, ?_, ?_⟩
    · simp [Tile.decrement]
    · simp [Tile.get_resources, Tile.decrement]
    · simp [Tile.is_depleted, Tile.decrement, hflag]
  · intro hle
    have hmin : min amount t.resources_remaining = amount := min_eq_left hle
    rw [hmin] at hget ⊢
    exact ⟨rfl, t.decrement amount, hget, rfl, rfl⟩

/-- The example of section 8, by C6: on the 2x1 tile with ten resources, `harvest((0,0), 3)`
returns 3 and leaves `get_resources() = 7`; then `harvest((0,0), 100)` returns 7 and
leaves the tile depleted. -/
theorem harvest_clamps_witness :
    ((exampleMap.harvest (0, 0) 3).1 = .ok 3 ∧
        ∃ u, (exampleMap.harvest (0, 0) 3).2.get_tile 0 0 = .ok (some u) ∧
          u = { exampleTile with resources_remaining := 7 } ∧ u.get_resources = 7) ∧
      (((exampleMap.harvest (0, 0) 3).2.harvest (0, 0) 100).1 = .ok 7 ∧
        ∃ u, ((exampleMap.harvest (0, 0) 3).2.harvest (0, 0) 100).2.get_tile 0 0 =
            .ok (some u) ∧
          u = { exampleTile with resources_remaining := 0 } ∧
          u.get_resources = 0 ∧ u.is_depleted = true) :=
  ⟨(harvest_clamps exampleMap 0 0 exampleTile 3 rfl rfl).2 (by decide),
    (harvest_clamps (exampleMap.harvest (0, 0) 3).2 0 0
      { exampleTile with resources_remaining := 7 } 100 rfl rfl).1 (by decide)⟩

/-- C7: when the tile found at a cell (any cell of its footprint) already has an occupant,
`place_occupant` there returns `AlreadyOccupied` whatever the policy and the new
identity, and the tilemap after the call is the tilemap before it: the tile at that
cell is the same tile, so `has_occupant()` stays true and `get_occupant()` and
`get_resources()` return what they did. -/
theorem place_occupant_occupied (policy : Tile → Option TileError) (m : Tilemap)
    (x y : Int) (t : Tile) (who : String)
    (ht : m.get_tile x y = .ok (some t)) (ho : t.has_occupant = true) :
    (m.place_occupant policy (x, y) who).1 = .error .AlreadyOccupied ∧
      (m.place_occupant policy (x, y) who).2 = m ∧
      ∃ u, (m.place_occupant policy (x, y) who).2.get_tile x y = .ok (some u) ∧
        u.has_occupant = true ∧ u.get_occupant = t.get_occupant ∧
        u.get_resources = t.get_resources := by
  have h : m.place_occupant policy (x, y) who = (.error .AlreadyOccupied, m) := by
    unfold Tilemap.place_occupant
    simp only [ht, ho, Bool.true_or, if_true]
  rw [h]
  exact ⟨rfl, rfl, t, ht, ho, rfl, rfl⟩

/-- The example of section 8, by C7: on the 2x1 tile, `place_occupant((0,0), "unit_42")`
succeeds, and then `place_occupant((1,0), "unit_7")` fails with `AlreadyOccupied` and
leaves `unit_42` the occupant. -/
theorem place_occupant_occupied_witness :
    (exampleMap.place_occupant noPolicy (0, 0) "unit_42").1 = .ok () ∧
      (((exampleMap.place_occupant noPolicy (0, 0) "unit_42").2.place_occupant noPolicy (1, 0)
            "unit_7").1 = .error .AlreadyOccupied ∧
        ((exampleMap.place_occupant noPolicy (0, 0) "unit_42").2.place_occupant noPolicy (1, 0)
            "unit_7").2 = (exampleMap.place_occupant noPolicy (0, 0) "unit_42").2 ∧
        ∃ u, ((exampleMap.place_occupant noPolicy (0, 0) "unit_42").2.place_occupant noPolicy
              (1, 0) "unit_7").2.get_tile 1 0 = .ok (some u) ∧
          u.has_occupant = true ∧ u.get_occupant = some "unit_42" ∧ u.get_resources = 10) :=
  ⟨rfl,
    place_occupant_occupied noPolicy (exampleMap.place_occupant noPolicy (0, 0) "unit_42").2 1 0
      (exampleTile.setOccupant "unit_42") "unit_7" rfl rfl⟩

/-- C9: the arguments of `Tile.create` are those of the one constructor `init_Tile`
registers (same types, same order); with a non-positive width or height, or a negative
oil, lumber or gold yield, it fails with `ConfigurationError` (so yields no tile);
whenever it yields a tile, width and height are at least 1 and the three yields are at
least 0. -/
theorem create_rejects_bad_size_or_yield (registry : List Int) (a : CtorArgs) :
    init_Tile.constructors = [a.values.map CppValue.type] ∧
      ((a.width ≤ 0 ∨ a.height ≤ 0 ∨ a.oil_yield < 0 ∨ a.lumber_yield < 0 ∨
          a.gold_yield < 0) →
        Tile.create registry a = .error .ConfigurationError) ∧
      (∀ t, Tile.create registry a = .ok t →
        1 ≤ a.width ∧ 1 ≤ a.height ∧ 0 ≤ a.oil_yield ∧ 0 ≤ a.lumber_yield ∧
          0 ≤ a.gold_yield) := by
  refine ⟨rfl, ?_, ?_⟩
  · intro h
    unfold Tile.create
    split
    · rfl
    · split
      · rfl
      · rename_i h1 h2
        exfalso
        rcases h with h | h | h | h | h
        · exact h1 (Or.inl h)
        · exact h1 (Or.inr h)
        · exact h2 (Or.inl h)
        · exact h2 (Or.inr (Or.inl h))
        · exact h2 (Or.inr (Or.inr h))
  · intro t h
    unfold Tile.create at h
    split at h
    · cases h
    · split at h
      · cases h
      · rename_i h1 h2
        push_neg at h1 h2
        omega

/-- C9 at concrete arguments: a width of 0, a height of -1 and a gold yield of -1 are each
rejected with `ConfigurationError`, and the arguments of the example tile, with a known
type id, yield the example tile. -/
theorem create_rejects_bad_size_or_yield_witness :
    Tile.create [1] { exampleArgs with width := 0 } = .error .ConfigurationError ∧
      Tile.create [1] { exampleArgs with height := -1 } = .error .ConfigurationError ∧
      Tile.create [1] { exampleArgs with gold_yield := -1 } = .error .ConfigurationError ∧
      (Tile.create [1] exampleArgs = .ok exampleTile ∧
        1 ≤ exampleArgs.width ∧ 1 ≤ exampleArgs.height ∧ 0 ≤ exampleArgs.oil_yield ∧
          0 ≤ exampleArgs.lumber_yield ∧ 0 ≤ exampleArgs.gold_yield) :=
  ⟨(create_rejects_bad_size_or_yield [1] { exampleArgs with width := 0 }).2.1
      (Or.inl (by decide)),
    (create_rejects_bad_size_or_yield [1] { exampleArgs with height := -1 }).2.1
      (Or.inr (Or.inl (by decide))),
    (create_rejects_bad_size_or_yield [1] { exampleArgs with gold_yield := -1 }).2.1
      (Or.inr (Or.inr (Or.inr (Or.inr (by decide))))),
    rfl,
    (create_rejects_bad_size_or_yield [1] exampleArgs).2.2 exampleTile rfl⟩

end DeepRTS
